import Mathlib

/-!
# Verification of the `EvStream` GTK event-stream adapter

A shallow embedding of `src/lib.rs` of the `ev-stream-gtk-rs` repository.
The crate converts glib signal callbacks into an async `Stream`:

* `EvStream<T>` holds a `WeakRef<Object>`, a `Cell<Option<SignalHandlerId>>`
  and the receiving half of an `mpsc::unbounded` channel;
* `EvStream::new` creates the channel, runs a caller-supplied connect
  function (registering the native callback and returning the weak object
  reference together with the signal-handler token) and wraps everything;
* `poll_next` delegates to the channel receiver;
* `Drop` upgrades the weak reference and, if the object is alive,
  disconnects the handler using the token taken out of the cell;
* the `ev_stream!` macro generates the connect function and the callback
  body, whose default variant clones every callback argument into a tuple
  and sends it with `unbounded_send(..).expect(..)`.

The glib object/signal system and the `futures_channel` mpsc queue are
external collaborators; they are embedded here through an explicit `World`
(alive objects, registered handler tokens, a log of `disconnect` calls)
and a `Channel` value (FIFO buffer plus the open/closed state of the two
endpoints), following the documented semantics those libraries guarantee.
-/

namespace EvStreamGtk

/-- Identity of a glib object. A `WeakRef<Object>` is embedded as the bare
identity, to be existence-checked against the `World` before use. -/
abbrev ObjId := Nat

/-- A `glib::SignalHandlerId`: the opaque subscription token. -/
abbrev Token := Nat

/-- The state of the glib object/signal system, as far as the adapter can
observe it: which objects are still alive, which handler tokens are
currently registered, the log of tokens passed to `disconnect`, and a
counter supplying fresh tokens. -/
structure World where
  alive : List ObjId
  connected : List Token
  disconnects : List Token
  nextToken : Token
deriving DecidableEq, Repr

/-- `WeakRef::upgrade`: yields the object only while it is alive. -/
def World.upgrade (w : World) (o : ObjId) : Option ObjId :=
  if o ∈ w.alive then some o else none

/-- `Object::disconnect(token)`: removes the registration and records the
call in the log. -/
def World.disconnect (w : World) (tok : Token) : World :=
  { w with
    connected := w.connected.erase tok
    disconnects := w.disconnects ++ [tok] }

/-- `connect_<event>` / `connect_local` as invoked by the `ev_stream!`
macro: registers one handler on the (alive) object and returns a fresh
token for it. -/
def World.connectEvent (w : World) : World × Token :=
  ({ w with
      connected := w.connected ++ [w.nextToken]
      nextToken := w.nextToken + 1 },
   w.nextToken)

/-- One `futures_channel::mpsc::unbounded` queue: the FIFO buffer together
with whether the sender half (owned by the connected callback closure) and
the receiver half (owned by the adapter) still exist. -/
structure Channel (T : Type) where
  buffer : List T
  senderOpen : Bool
  receiverOpen : Bool
deriving DecidableEq, Repr

/-- `mpsc::unbounded()`: fresh empty queue, both halves open. -/
def Channel.unbounded {T : Type} : Channel T :=
  { buffer := [], senderOpen := true, receiverOpen := true }

/-- `UnboundedSender::unbounded_send`: appends to the buffer, or fails when
the receiver half has been dropped. -/
def Channel.unbounded_send {T : Type} (c : Channel T) (x : T) :
    Except Unit (Channel T) :=
  if c.receiverOpen then .ok { c with buffer := c.buffer ++ [x] }
  else .error ()

/-- `Poll` from `futures_core::task`. -/
inductive Poll (α : Type) where
  | ready (a : α)
  | pending
deriving DecidableEq, Repr

/-- `UnboundedReceiver::poll_next`: pops the oldest buffered item; on an
empty buffer it is `Ready(None)` once the sender half is gone (channel
terminated) and `Pending` otherwise. -/
def Channel.poll_next {T : Type} (c : Channel T) :
    Poll (Option T) × Channel T :=
  match c.buffer with
  | x :: rest => (.ready (some x), { c with buffer := rest })
  | [] => if c.senderOpen then (.pending, c) else (.ready none, c)

/-- The object being finalized: glib drops the handler closure, which owns
the sender half of the queue. -/
def Channel.closeSender {T : Type} (c : Channel T) : Channel T :=
  { c with senderOpen := false }

/-- The adapter being destroyed after its drop body ran: the handler
closure (sender) is gone and the receiver field is dropped. -/
def Channel.closeBoth {T : Type} (c : Channel T) : Channel T :=
  { c with senderOpen := false, receiverOpen := false }

/-- `EvStream<T>` from `src/lib.rs`: weak reference to the source object,
the `Cell<Option<SignalHandlerId>>` token cell, and the receiver half of
the queue (embedded as the whole queue value, of which the adapter is the
unique reader). -/
structure EvStream (T : Type) where
  object : ObjId
  signal_id : Option Token
  receiver : Channel T
deriving DecidableEq, Repr

/-- `EvStream::new`: creates the queue, runs `connect_sender_fun` (which
registers the native callback, acting on the `World`, and returns the weak
object reference and the token), and returns the wired adapter. The
sender half handed to the connect function is captured by the callback
closure it registers, so it does not reappear in the returned data. -/
def EvStream.new {T : Type}
    (connect_sender_fun : World → World × (ObjId × Token)) (w : World) :
    World × EvStream T :=
  let r : Channel T := Channel.unbounded
  let res := connect_sender_fun w
  (res.1, { object := res.2.1, signal_id := some res.2.2, receiver := r })

/-- `Stream::poll_next` for `EvStream`: delegates to the receiver. -/
def EvStream.poll_next {T : Type} (s : EvStream T) :
    Poll (Option T) × EvStream T :=
  let r := s.receiver.poll_next
  (r.1, { s with receiver := r.2 })

/-- Outcome of running the `Drop` body: normal completion with the updated
world and adapter fields, or a Rust panic (carrying the world as it was
when the panic fired). -/
inductive DropResult (T : Type) where
  | ok (w : World) (s : EvStream T)
  | panicked (w : World)
deriving DecidableEq, Repr

/-- The body of `impl Drop for EvStream`:
`self.object.upgrade().map(|obj| obj.disconnect(self.signal_id.take().unwrap()))`.
If the upgrade fails the closure never runs (the cell is not even taken);
if it succeeds, the cell is emptied and the token unwrapped — a panic when
the cell was already empty — and passed to `disconnect`. -/
def EvStream.dropBody {T : Type} (w : World) (s : EvStream T) :
    DropResult T :=
  match w.upgrade s.object with
  | some _ =>
    match s.signal_id with
    | some tok => .ok (w.disconnect tok) { s with signal_id := none }
    | none => .panicked w
  | none => .ok w s

/-- The connect function generated by the `ev_stream!` macro:
`move |sender| { let signal_id = $this.connect_<event>(move |..| ..); (object, signal_id) }`
— it registers one handler on the object and returns the downgraded
object reference paired with the fresh token. -/
def genConnectFun (obj : ObjId) (w : World) : World × (ObjId × Token) :=
  let r := w.connectEvent
  (r.1, (obj, r.2))

/-- The callback body generated by the `ev_stream!` macro:
`let args = $cloning_body; sender.unbounded_send(args).expect("sending value in ev_stream");`
— evaluates the argument-handling rule `body` on the callback arguments
and sends the item; the `expect` turns a send failure into a panic
(`none`), never a silent drop. -/
def genCallback {A T : Type} (body : A → T) (c : Channel T) (args : A) :
    Option (Channel T) :=
  match c.unbounded_send (body args) with
  | .ok c2 => some c2
  | .error _ => none

/-- The default argument-handling rule of `ev_stream!` at arity two:
`($x.clone(), $y.clone())`. Rust `Clone` is type-directed, so each
parameter's `clone` is embedded as an explicit function. -/
def defaultCloningBody2 {α β : Type} (cloneFst : α → α) (cloneSnd : β → β) :
    α × β → α × β :=
  fun args => (cloneFst args.1, cloneSnd args.2)

/-- The default argument-handling rule of `ev_stream!` at arity three:
`($x.clone(), $y.clone(), $z.clone())`. -/
def defaultCloningBody3 {α β γ : Type}
    (cloneFst : α → α) (cloneSnd : β → β) (cloneThd : γ → γ) :
    α × β × γ → α × β × γ :=
  fun args => (cloneFst args.1, cloneSnd args.2.1, cloneThd args.2.2)

/-- A sequence of native-callback firings, each pushing one item through
the macro-generated callback (with the identity argument rule); `none`
when some firing panicked. -/
def fireAll {T : Type} (c : Channel T) : List T → Option (Channel T)
  | [] => some c
  | x :: rest => (genCallback (fun y => y) c x).bind (fun c2 => fireAll c2 rest)

/-- The toolkit dispatching one signal emission to the callbacks of two
independently connected adapters, in registration order. -/
def fireBoth {T : Type} (c1 c2 : Channel T) (x : T) :
    Option (Channel T × Channel T) :=
  (genCallback (fun y => y) c1 x).bind fun d1 =>
    (genCallback (fun y => y) c2 x).map fun d2 => (d1, d2)

/-- Polling the adapter `n` times, collecting the poll results in order. -/
def drainStream {T : Type} (s : EvStream T) :
    Nat → List (Poll (Option T)) × EvStream T
  | 0 => ([], s)
  | n + 1 =>
    let r := s.poll_next
    let rest := drainStream r.2 n
    (r.1 :: rest.1, rest.2)

/-- One adapter together with the toolkit world it lives in. `token`
records the token handed out at construction (a ghost copy: the live copy
sits in the adapter's cell until the drop body takes it), and `dropped`
records whether the adapter's destructor has run. -/
structure Sys (T : Type) where
  world : World
  stream : EvStream T
  token : Token
  dropped : Bool
deriving DecidableEq, Repr

/-- The events the single-threaded scheduler can interleave: a signal
emission reaching the registered callback, a consumer poll, the source
object being finalized, and the adapter being dropped. -/
inductive Ev (T : Type) where
  | fire (x : T)
  | poll
  | destroyObj
  | drop
deriving DecidableEq, Repr

/-- Constructing the adapter through `ev_stream!` /
`EvStream::new(connect_fun)` on object `obj` in world `w`. -/
def Sys.init {T : Type} (obj : ObjId) (w : World) : Sys T :=
  let r := EvStream.new (T := T) (genConnectFun obj) w
  { world := r.1, stream := r.2, token := w.nextToken, dropped := false }

/-- Small-step semantics of the system. `none` covers both an event whose
precondition does not hold (the scheduler cannot produce it) and a Rust
panic inside the step.

* `fire`: the toolkit invokes the callback only while the object is alive
  and the handler registered; the callback sends the item, panicking if
  the receiver is gone.
* `poll`: the consumer polls a not-yet-dropped adapter.
* `destroyObj`: the object is finalized; glib invalidates its handlers
  and drops the callback closure, closing the sender half of the queue.
* `drop`: the adapter's destructor: the `Drop` body runs, then the fields
  are dropped, closing the receiver half (and the sender half through the
  disconnect when the object was still alive). -/
def Sys.step {T : Type} (s : Sys T) : Ev T → Option (Sys T)
  | .fire x =>
    if s.stream.object ∈ s.world.alive ∧ s.token ∈ s.world.connected then
      match genCallback (fun y => y) s.stream.receiver x with
      | some c => some { s with stream := { s.stream with receiver := c } }
      | none => none
    else none
  | .poll =>
    if s.dropped = false then
      some { s with stream := s.stream.poll_next.2 }
    else none
  | .destroyObj =>
    if s.stream.object ∈ s.world.alive then
      some { s with
        world := { s.world with
          alive := s.world.alive.erase s.stream.object
          connected := s.world.connected.erase s.token }
        stream := { s.stream with receiver := s.stream.receiver.closeSender } }
    else none
  | .drop =>
    if s.dropped = false then
      match EvStream.dropBody s.world s.stream with
      | .ok w2 s2 =>
        some { world := w2
               stream := { s2 with receiver := s2.receiver.closeBoth }
               token := s.token
               dropped := true }
      | .panicked _ => none
    else none

/-- States reachable from an adapter construction in a world where the
source object is alive and the fresh token is not already registered. -/
inductive Reachable {T : Type} : Sys T → Prop where
  | init (obj : ObjId) (w : World) (halive : obj ∈ w.alive)
      (hfresh : w.nextToken ∉ w.connected) : Reachable (Sys.init obj w)
  | step (s : Sys T) (e : Ev T) (s2 : Sys T) (hr : Reachable s)
      (hs : Sys.step s e = some s2) : Reachable s2

/-- The lifecycle invariant tying the adapter to the toolkit state:
until the destructor runs the token cell is full and the receiver half
open; a registered token implies the adapter is undropped and the object
alive; the token is registered at most once. -/
def Inv {T : Type} (s : Sys T) : Prop :=
  (s.dropped = false → s.stream.signal_id = some s.token) ∧
  (s.dropped = false → s.stream.receiver.receiverOpen = true) ∧
  (s.token ∈ s.world.connected → s.dropped = false) ∧
  (s.token ∈ s.world.connected → s.stream.object ∈ s.world.alive) ∧
  s.world.connected.count s.token ≤ 1

/-- A world with one alive object `0` whose handler `7` is registered:
the state right after a successful subscription. -/
def exWorld : World :=
  { alive := [0], connected := [7], disconnects := [], nextToken := 8 }

/-- The adapter wired to that subscription. -/
def exStream : EvStream Nat :=
  { object := 0, signal_id := some 7, receiver := Channel.unbounded }

/-- `exWorld` after the first disposal disconnected handler `7`. -/
def exWorldDisposed : World :=
  { alive := [0], connected := [], disconnects := [7], nextToken := 8 }

/-- `exStream` after the first disposal consumed the token cell. -/
def exStreamDisposed : EvStream Nat :=
  { object := 0, signal_id := none, receiver := Channel.unbounded }

/-! ### Basic lemmas about the embedded operations -/

theorem genCallback_eq_some {A T : Type} {body : A → T} {c : Channel T}
    {args : A} {c2 : Channel T} (h : genCallback body c args = some c2) :
    c.receiverOpen = true ∧ c2.receiverOpen = true := by
  cases hro : c.receiverOpen with
  | false => simp [genCallback, Channel.unbounded_send, hro] at h
  | true =>
    simp [genCallback, Channel.unbounded_send, hro] at h
    exact ⟨rfl, by rw [← h]⟩

theorem genCallback_closed {A T : Type} (body : A → T) (c : Channel T)
    (args : A) (h : c.receiverOpen = false) :
    genCallback body c args = none := by
  simp [genCallback, Channel.unbounded_send, h]

theorem genCallback_open {A T : Type} (body : A → T) (c : Channel T)
    (args : A) (h : c.receiverOpen = true) :
    genCallback body c args =
      some { c with buffer := c.buffer ++ [body args] } := by
  simp [genCallback, Channel.unbounded_send, h]

theorem poll_next_state {T : Type} (c : Channel T) :
    c.poll_next.2.receiverOpen = c.receiverOpen ∧
      c.poll_next.2.senderOpen = c.senderOpen := by
  unfold Channel.poll_next
  cases hb : c.buffer with
  | nil => by_cases hs : c.senderOpen = true <;> simp [hs]
  | cons x rest => simp

theorem poll_next_signal_id {T : Type} (s : EvStream T) :
    s.poll_next.2.signal_id = s.signal_id := rfl

theorem poll_next_cons {T : Type} (c : Channel T) (x : T) (rest : List T)
    (h : c.buffer = x :: rest) :
    c.poll_next = (.ready (some x), { c with buffer := rest }) := by
  unfold Channel.poll_next
  rw [h]

theorem poll_next_empty_open {T : Type} (c : Channel T) (hb : c.buffer = [])
    (hs : c.senderOpen = true) : c.poll_next.1 = .pending := by
  unfold Channel.poll_next
  rw [hb, hs]
  simp

theorem poll_next_empty_closed {T : Type} (c : Channel T) (hb : c.buffer = [])
    (hs : c.senderOpen = false) : c.poll_next.1 = .ready none := by
  unfold Channel.poll_next
  rw [hb, hs]
  simp

theorem fireAll_open {T : Type} (xs : List T) :
    ∀ c : Channel T, c.receiverOpen = true →
      fireAll c xs = some { c with buffer := c.buffer ++ xs } := by
  induction xs with
  | nil => intro c h; simp [fireAll]
  | cons x rest ih =>
    intro c h
    rw [fireAll, genCallback_open _ _ _ h, Option.some_bind,
      ih { c with buffer := c.buffer ++ [x] } h]
    simp

theorem drainStream_spec {T : Type} (l : List T) :
    ∀ s : EvStream T, s.receiver.buffer = l →
      (drainStream s l.length).1 = l.map (fun x => Poll.ready (some x)) ∧
      (drainStream s l.length).2.signal_id = s.signal_id ∧
      (drainStream s l.length).2.receiver.buffer = [] ∧
      (drainStream s l.length).2.receiver.senderOpen
        = s.receiver.senderOpen := by
  induction l with
  | nil => intro s h; exact ⟨rfl, rfl, h, rfl⟩
  | cons x rest ih =>
    intro s h
    have hp := poll_next_cons s.receiver x rest h
    have hstep : s.poll_next =
        (.ready (some x), { s with receiver := { s.receiver with buffer := rest } }) := by
      unfold EvStream.poll_next
      rw [hp]
    have hrec := ih { s with receiver := { s.receiver with buffer := rest } } rfl
    simp only [drainStream, hstep, List.length_cons, List.map_cons]
    exact ⟨by rw [hrec.1], hrec.2.1, hrec.2.2.1, hrec.2.2.2⟩

theorem upgrade_dead (w : World) (o : ObjId)
    (h : w.upgrade o = none) : o ∉ w.alive := by
  by_cases hm : o ∈ w.alive
  · simp [World.upgrade, hm] at h
  · exact hm

/-! ### The lifecycle invariant -/

theorem inv_init {T : Type} (obj : ObjId) (w : World) (halive : obj ∈ w.alive)
    (hfresh : w.nextToken ∉ w.connected) : Inv (Sys.init (T := T) obj w) := by
  refine ⟨fun _ => rfl, fun _ => rfl, fun _ => rfl, fun _ => halive, ?_⟩
  have h0 : w.connected.count w.nextToken = 0 :=
    List.count_eq_zero.mpr hfresh
  simp [Sys.init, EvStream.new, genConnectFun, World.connectEvent, h0]

theorem inv_preserved {T : Type} {s : Sys T} {e : Ev T} {s2 : Sys T}
    (hi : Inv s) (hs : Sys.step s e = some s2) : Inv s2 := by
  obtain ⟨h1, h2, h3, h4, h5⟩ := hi
  have hce := s.world.connected.count_erase_self s.token
  have hnotmem : s.token ∉ s.world.connected.erase s.token := by
    intro hmem
    have hpos := List.count_pos_iff.mpr hmem
    omega
  cases e with
  | fire x =>
    simp only [Sys.step] at hs
    split at hs
    · cases hcb : genCallback (fun y => y) s.stream.receiver x with
      | none => rw [hcb] at hs; cases hs
      | some c =>
        rw [hcb] at hs
        cases hs
        exact ⟨h1, fun _ => (genCallback_eq_some hcb).2, h3, h4, h5⟩
    · cases hs
  | poll =>
    simp only [Sys.step] at hs
    split at hs
    · rename_i hnd
      cases hs
      refine ⟨fun _ => ?_, fun _ => ?_, h3, h4, h5⟩
      · show s.stream.poll_next.2.signal_id = some s.token
        rw [poll_next_signal_id]
        exact h1 hnd
      · show s.stream.receiver.poll_next.2.receiverOpen = true
        rw [(poll_next_state s.stream.receiver).1]
        exact h2 hnd
    · cases hs
  | destroyObj =>
    simp only [Sys.step] at hs
    split at hs
    · cases hs
      refine ⟨h1, h2, fun hmem => absurd hmem hnotmem,
        fun hmem => absurd hmem hnotmem, ?_⟩
      show (s.world.connected.erase s.token).count s.token ≤ 1
      omega
    · cases hs
  | drop =>
    simp only [Sys.step] at hs
    split at hs
    · rename_i hnd
      cases hdb : EvStream.dropBody s.world s.stream with
      | panicked w2 => rw [hdb] at hs; cases hs
      | ok w2 t2 =>
        rw [hdb] at hs
        cases hs
        unfold EvStream.dropBody at hdb
        cases hup : s.world.upgrade s.stream.object with
        | some o =>
          rw [hup, h1 hnd] at hdb
          cases hdb
          refine ⟨?_, ?_, ?_, ?_, ?_⟩
          · intro hd; exact nomatch hd
          · intro hd; exact nomatch hd
          · intro hmem; exact absurd hmem hnotmem
          · intro hmem; exact absurd hmem hnotmem
          · show (s.world.connected.erase s.token).count s.token ≤ 1
            omega
        | none =>
          rw [hup] at hdb
          cases hdb
          have hdead : s.stream.object ∉ s.world.alive := upgrade_dead _ _ hup
          have hout : s.token ∉ s.world.connected := fun hmem =>
            hdead (h4 hmem)
          refine ⟨?_, ?_, ?_, ?_, h5⟩
          · intro hd; exact nomatch hd
          · intro hd; exact nomatch hd
          · intro hmem; exact absurd hmem hout
          · intro hmem; exact absurd hmem hout
    · cases hs

theorem reachable_inv {T : Type} {s : Sys T} (h : Reachable s) : Inv s := by
  induction h with
  | init obj w halive hfresh => exact inv_init obj w halive hfresh
  | step s e s2 hr hs ih => exact inv_preserved ih hs

/-! ### Claim theorems -/

/-- C1: dropping an adapter whose weak source-object reference still
upgrades invokes `disconnect` exactly once, passing the stored
subscription token, synchronously inside the drop body: the world
returned by the drop body already carries exactly one new entry — the
stored token — in the disconnect log, and the token cell is left empty. -/
theorem drop_live_disconnects_once {α : Type} (w : World) (s : EvStream α)
    (tok : Token) (halive : s.object ∈ w.alive)
    (htok : s.signal_id = some tok) :
    EvStream.dropBody w s =
      DropResult.ok (w.disconnect tok) { s with signal_id := none } ∧
    (w.disconnect tok).disconnects = w.disconnects ++ [tok] := by
  constructor
  · unfold EvStream.dropBody World.upgrade
    rw [if_pos halive, htok]
  · rfl

/-- Witness for C1 at a concrete world and adapter. -/
theorem drop_live_disconnects_once_witness :
    EvStream.dropBody exWorld exStream =
      DropResult.ok (exWorld.disconnect 7) { exStream with signal_id := none } ∧
    (exWorld.disconnect 7).disconnects = exWorld.disconnects ++ [7] :=
  drop_live_disconnects_once exWorld exStream 7 (by decide) rfl

/-- C2: dropping an adapter whose source object is already destroyed (the
weak reference fails to upgrade) performs zero unregistration calls and
raises no panic: the drop body completes normally and leaves the world —
in particular the disconnect log — untouched. -/
theorem drop_dead_skips_unregistration {α : Type} (w : World)
    (s : EvStream α) (hdead : s.object ∉ w.alive) :
    EvStream.dropBody w s = DropResult.ok w s := by
  unfold EvStream.dropBody World.upgrade
  rw [if_neg hdead]

/-- Witness for C2 at a concrete world with no alive object. -/
theorem drop_dead_skips_unregistration_witness :
    EvStream.dropBody { exWorld with alive := [] } exStream =
      DropResult.ok { exWorld with alive := [] } exStream :=
  drop_dead_skips_unregistration _ exStream (by decide)

/-- C3 counterexample: after a first disposal of a live-object adapter,
running the disposal logic a second time with the object still alive is
not a harmless no-op — the `unwrap` of the already-consumed token cell
panics (while indeed never calling `disconnect` again: the world carried
by the panic is unchanged). -/
theorem second_disposal_panics_cex :
    EvStream.dropBody exWorld exStream =
      DropResult.ok exWorldDisposed exStreamDisposed ∧
    EvStream.dropBody exWorldDisposed exStreamDisposed =
      DropResult.panicked exWorldDisposed ∧
    EvStream.dropBody exWorldDisposed exStreamDisposed ≠
      DropResult.ok exWorldDisposed exStreamDisposed := by
  refine ⟨rfl, rfl, ?_⟩
  decide

/-- C3 amended: invoking the disposal logic a second time on an
already-disposed adapter whose source object is alive never re-invokes
unregistration — the world, and with it the disconnect log, is returned
unchanged — but the second attempt is not a harmless no-op: the `unwrap`
of the consumed token cell panics. -/
theorem second_disposal_no_duplicate_disconnect {α : Type} (w : World)
    (s : EvStream α) (halive : s.object ∈ w.alive)
    (htaken : s.signal_id = none) :
    EvStream.dropBody w s = DropResult.panicked w := by
  unfold EvStream.dropBody World.upgrade
  rw [if_pos halive, htaken]

/-- Witness for the amended C3 at the concrete post-disposal state. -/
theorem second_disposal_no_duplicate_disconnect_witness :
    EvStream.dropBody exWorldDisposed exStreamDisposed =
      DropResult.panicked exWorldDisposed :=
  second_disposal_no_duplicate_disconnect exWorldDisposed exStreamDisposed
    (by decide) rfl

/-- C4: if the native callback fires `N` times (items `xs`, in order)
into a freshly constructed adapter before any consumer poll, then polling
the adapter `N` times yields exactly those items in firing order, and the
`(N+1)`-th poll is `Pending` while the producer side is still open. -/
theorem fifo_delivery {α : Type} (s : EvStream α) (xs : List α)
    (hfresh : s.receiver = Channel.unbounded) :
    ∃ c, fireAll s.receiver xs = some c ∧
      (drainStream { s with receiver := c } xs.length).1
        = xs.map (fun x => Poll.ready (some x)) ∧
      (drainStream { s with receiver := c } xs.length).2.poll_next.1
        = Poll.pending := by
  obtain ⟨obj, sid, r⟩ := s
  have hr : r = Channel.unbounded := hfresh
  subst hr
  refine ⟨⟨xs, true, true⟩, ?_, ?_, ?_⟩
  · have hfire := fireAll_open xs (Channel.unbounded (T := α)) rfl
    simpa [Channel.unbounded] using hfire
  · exact (drainStream_spec xs (EvStream.mk obj sid ⟨xs, true, true⟩) rfl).1
  · have hd := drainStream_spec xs (EvStream.mk obj sid ⟨xs, true, true⟩) rfl
    exact poll_next_empty_open _ hd.2.2.1 hd.2.2.2

/-- Witness for C4: three firings into a fresh adapter drain in order and
the fourth poll suspends. -/
theorem fifo_delivery_witness :
    ∃ c, fireAll exStream.receiver [10, 20, 30] = some c ∧
      (drainStream { exStream with receiver := c } [10, 20, 30].length).1
        = [10, 20, 30].map (fun x => Poll.ready (some x)) ∧
      (drainStream { exStream with receiver := c } [10, 20, 30].length).2.poll_next.1
        = Poll.pending :=
  fifo_delivery exStream [10, 20, 30] rfl

/-- C5: polling never blocks — with an empty queue and the producer side
still open, `poll_next` is `Pending`; once the producer side has closed
and the buffer is drained it is `Ready(None)` (end of stream); and in the
scenario where the object emits `a` then `b` and is then destroyed
(closing the sender half), three polls observe `a`, `b`, end-of-stream. -/
theorem poll_nonblocking_terminates {α : Type} :
    (∀ s : EvStream α, s.receiver.buffer = [] →
      s.receiver.senderOpen = true → s.poll_next.1 = Poll.pending) ∧
    (∀ s : EvStream α, s.receiver.buffer = [] →
      s.receiver.senderOpen = false → s.poll_next.1 = Poll.ready none) ∧
    (∀ (a b : α) (s : EvStream α), s.receiver = Channel.unbounded →
      ∃ c, fireAll s.receiver [a, b] = some c ∧
        (drainStream { s with receiver := c.closeSender } 3).1 =
          [Poll.ready (some a), Poll.ready (some b), Poll.ready none]) := by
  refine ⟨?_, ?_, ?_⟩
  · intro s hb hs
    exact poll_next_empty_open s.receiver hb hs
  · intro s hb hs
    exact poll_next_empty_closed s.receiver hb hs
  · intro a b s hfresh
    obtain ⟨obj, sid, r⟩ := s
    have hr : r = Channel.unbounded := hfresh
    subst hr
    refine ⟨⟨[a, b], true, true⟩, ?_, ?_⟩
    · have hfire := fireAll_open [a, b] (Channel.unbounded (T := α)) rfl
      simpa [Channel.unbounded] using hfire
    · simp [drainStream, EvStream.poll_next, Channel.poll_next,
        Channel.closeSender]

/-- Witness for C5 at concrete adapters and the concrete emission
scenario `10`, `20`, destroy. -/
theorem poll_nonblocking_terminates_witness :
    (EvStream.poll_next (⟨0, some 7, ⟨[], true, true⟩⟩ : EvStream Nat)).1
        = Poll.pending ∧
    (EvStream.poll_next (⟨0, some 7, ⟨[], false, true⟩⟩ : EvStream Nat)).1
        = Poll.ready none ∧
    (∃ c, fireAll exStream.receiver [10, 20] = some c ∧
      (drainStream { exStream with receiver := c.closeSender } 3).1 =
        [Poll.ready (some 10), Poll.ready (some 20), Poll.ready none]) :=
  ⟨(poll_nonblocking_terminates (α := Nat)).1 ⟨0, some 7, ⟨[], true, true⟩⟩ rfl rfl,
   (poll_nonblocking_terminates (α := Nat)).2.1 ⟨0, some 7, ⟨[], false, true⟩⟩ rfl rfl,
   (poll_nonblocking_terminates (α := Nat)).2.2 10 20 exStream rfl⟩

/-- C6: a failed push (receiver half already dropped) makes the
macro-generated callback panic via `expect` — it returns no successor
channel, so the item is never silently discarded — and in every reachable
single-threaded system state in which the toolkit can still invoke the
callback (object alive, handler registered), the push succeeds, so the
failure branch is unreachable under correct teardown ordering. -/
theorem send_failure_aborts {α : Type} :
    (∀ (A : Type) (body : A → α) (c : Channel α) (args : A),
      c.receiverOpen = false → genCallback body c args = none) ∧
    (∀ (s : Sys α) (x : α), Reachable s →
      s.stream.object ∈ s.world.alive → s.token ∈ s.world.connected →
      ∃ s2, Sys.step s (Ev.fire x) = some s2) := by
  constructor
  · intro A body c args h
    exact genCallback_closed body c args h
  · intro s x hr halive htok
    obtain ⟨h1, h2, h3, h4, h5⟩ := reachable_inv hr
    have hro := h2 (h3 htok)
    exact ⟨_, by
      simp only [Sys.step]
      rw [if_pos ⟨halive, htok⟩, genCallback_open _ _ _ hro]⟩

/-- Witness for C6: a concrete closed channel panics the callback, and a
concrete freshly constructed system accepts a firing. -/
theorem send_failure_aborts_witness :
    genCallback (fun y : Nat => y) ⟨[], true, false⟩ 5 = none ∧
    ∃ s2, Sys.step (Sys.init (T := Nat) 0 ⟨[0], [], [], 0⟩) (Ev.fire 5) = some s2 :=
  ⟨(send_failure_aborts (α := Nat)).1 Nat (fun y => y) ⟨[], true, false⟩ 5 rfl,
   (send_failure_aborts (α := Nat)).2 (Sys.init 0 ⟨[0], [], [], 0⟩) 5
     (Reachable.init 0 ⟨[0], [], [], 0⟩ (by decide) (by decide))
     (by decide) (by decide)⟩

/-- C7: `EvStream::new` is the atomic compose of queue creation, the
caller-supplied connect function and wrapping: with the macro-generated
connect function it returns a world whose only new registration is the
fresh token, and an adapter already holding exactly that token, the weak
reference to the source object, and the fresh receiver — so no
registration ever exists outside an owning adapter. -/
theorem construction_atomic {α : Type} (obj : ObjId) (w : World) :
    (EvStream.new (T := α) (genConnectFun obj) w).1.connected
        = w.connected ++ [w.nextToken] ∧
    (EvStream.new (T := α) (genConnectFun obj) w).2.signal_id
        = some w.nextToken ∧
    (EvStream.new (T := α) (genConnectFun obj) w).2.object = obj ∧
    (EvStream.new (T := α) (genConnectFun obj) w).2.receiver
        = Channel.unbounded ∧
    (EvStream.new (T := α) (genConnectFun obj) w).1.alive = w.alive ∧
    (EvStream.new (T := α) (genConnectFun obj) w).1.disconnects
        = w.disconnects :=
  ⟨rfl, rfl, rfl, rfl, rfl, rfl⟩

/-- C8: two adapters constructed on the same object hold distinct
subscription tokens and disjoint queues: one signal emission dispatched
to both callbacks lands in both buffers, and polling the first adapter
yields the item while the second adapter's queue still holds its own
copy (and conversely yields it when polled) — no item is stolen. -/
theorem two_adapters_independent {α : Type} (obj : ObjId) (w : World)
    (x : α) :
    (EvStream.new (T := α) (genConnectFun obj) w).2.signal_id ≠
      (EvStream.new (T := α) (genConnectFun obj)
        (EvStream.new (T := α) (genConnectFun obj) w).1).2.signal_id ∧
    ∃ p, fireBoth
        (EvStream.new (T := α) (genConnectFun obj) w).2.receiver
        (EvStream.new (T := α) (genConnectFun obj)
          (EvStream.new (T := α) (genConnectFun obj) w).1).2.receiver x
        = some p ∧
      p.1.buffer = [x] ∧ p.2.buffer = [x] ∧
      (Channel.poll_next p.1).1 = Poll.ready (some x) ∧
      (Channel.poll_next p.1).2.buffer = [] ∧
      (Channel.poll_next p.2).1 = Poll.ready (some x) := by
  constructor
  · simp [EvStream.new, genConnectFun, World.connectEvent]
  · refine ⟨(⟨[x], true, true⟩, ⟨[x], true, true⟩), ?_, rfl, rfl, rfl, rfl, rfl⟩
    simp [EvStream.new, fireBoth, genCallback, Channel.unbounded_send,
      Channel.unbounded]

/-- C9: the default argument-handling rule of the construction macro
enqueues, for each callback firing, exactly the tuple of every callback
parameter individually cloned, in parameter order — shown at arities two
and three. -/
theorem default_rule_clones_in_order {α β γ : Type}
    (cloneFst : α → α) (cloneSnd : β → β) (cloneThd : γ → γ)
    (c2 : Channel (α × β)) (c3 : Channel (α × β × γ))
    (a : α) (b : β) (g : γ)
    (h2 : c2.receiverOpen = true) (h3 : c3.receiverOpen = true) :
    genCallback (defaultCloningBody2 cloneFst cloneSnd) c2 (a, b)
      = some { c2 with buffer := c2.buffer ++ [(cloneFst a, cloneSnd b)] } ∧
    genCallback (defaultCloningBody3 cloneFst cloneSnd cloneThd) c3 (a, b, g)
      = some { c3 with
          buffer := c3.buffer ++ [(cloneFst a, cloneSnd b, cloneThd g)] } :=
  ⟨genCallback_open _ c2 (a, b) h2, genCallback_open _ c3 (a, b, g) h3⟩

/-- Witness for C9 on fresh channels at concrete arguments, with
observable (non-identity) clone functions. -/
theorem default_rule_clones_in_order_witness :
    genCallback (defaultCloningBody2 (fun n : Nat => n + 1) (fun m : Nat => m * 2))
        Channel.unbounded (3, 4)
      = some (⟨[(4, 8)], true, true⟩ : Channel (Nat × Nat)) ∧
    genCallback (defaultCloningBody3 (fun n : Nat => n + 1) (fun m : Nat => m * 2)
          (fun k : Nat => k))
        Channel.unbounded (3, 4, 5)
      = some (⟨[(4, 8, 5)], true, true⟩ : Channel (Nat × Nat × Nat)) :=
  default_rule_clones_in_order (fun n => n + 1) (fun m => m * 2) (fun k => k)
    Channel.unbounded Channel.unbounded 3 4 5 rfl rfl

/-- C10: in every reachable system state in which the adapter has not yet
been dropped, the token cell still holds the construction-time token —
no event other than the drop takes it — and therefore running the drop
(whether or not the source object is still alive) completes without the
`unwrap` panicking. -/
theorem token_cell_stable_no_panic {α : Type} (s : Sys α)
    (hr : Reachable s) (hnd : s.dropped = false) :
    s.stream.signal_id = some s.token ∧
    ∃ s2, Sys.step s Ev.drop = some s2 ∧ s2.dropped = true := by
  obtain ⟨h1, h2, h3, h4, h5⟩ := reachable_inv hr
  refine ⟨h1 hnd, ?_⟩
  simp only [Sys.step, hnd, if_true]
  unfold EvStream.dropBody
  cases hup : s.world.upgrade s.stream.object with
  | some o =>
    rw [h1 hnd]
    exact ⟨_, rfl, rfl⟩
  | none =>
    exact ⟨_, rfl, rfl⟩

/-- Witness for C10: a freshly constructed system, after one firing,
still holds its token and its drop completes. -/
theorem token_cell_stable_no_panic_witness :
    (Sys.init (T := Nat) 0 ⟨[0], [], [], 0⟩).stream.signal_id =
      some (Sys.init (T := Nat) 0 ⟨[0], [], [], 0⟩).token ∧
    ∃ s2, Sys.step (Sys.init (T := Nat) 0 ⟨[0], [], [], 0⟩) Ev.drop = some s2 ∧
      s2.dropped = true :=
  token_cell_stable_no_panic (Sys.init 0 ⟨[0], [], [], 0⟩)
    (Reachable.init 0 ⟨[0], [], [], 0⟩ (by decide) (by decide)) rfl

end EvStreamGtk
